import Mathlib

/-!
Verification of the NVENC H.264 encoder core of gst-plugins-bad
(sys/nvcodec/gstnvh264encoder.cpp) against its natural-language design
specification.

The development shallowly embeds the encoder's property handling
(gst_nv_h264_encoder_set_property / get_property), the session-config
builder part of gst_nv_h264_encoder_set_format, the reconfiguration
state machine (gst_nv_h264_encoder_check_reconfigure) and the packetized
bitstream packager (gst_nv_h264_encoder_create_output_buffer).

Machine integers are modelled as Nat / Int; assignments into 32-bit
unsigned NVENC fields are taken modulo 2^32 (function u32 below).
The GstNvEncoder base class, GObject machinery, GStreamer caps handling
and the NVENC driver calls are external collaborators: their outcomes
(downstream profile set, packetized flag, preset configuration) are
inputs of the embedded functions.
-/

/-- gint truncation of a C double value toward zero, as performed by the
cast in gst_nv_h264_encoder_set_format's const-quality handling.  The
double value is modelled by the rational it denotes exactly; T-division
of the numerator by the (positive) denominator is truncation toward
zero. -/
def ctrunc (q : ℚ) : Int := q.num.tdiv q.den

/-- Reduction of a signed value stored into a 32-bit unsigned field
(guint32 / uint32_t NVENC struct members). -/
def u32 (x : Int) : Nat := (x % (2 : Int) ^ 32).toNat

/-- Reduction of an unsigned value stored into a 32-bit unsigned field. -/
def u32n (x : Nat) : Nat := x % 2 ^ 32

/-- NVENC_INFINITE_GOPLENGTH from the NVENC SDK header. -/
def NVENC_INFINITE_GOPLENGTH : Nat := 0xffffffff

/-- Modelled from the spec: GstNvEncoderPreset, the encoding preset enum
declared in gstnvencoder.h (repository code outside src/).  Only identity
of values matters for the embedded functions. -/
inductive NvPreset
  | presetDefault
  | hp
  | hq
  | lowLatencyDefault
  | lowLatencyHq
  | lowLatencyHp
  | losslessDefault
  | losslessHp
deriving DecidableEq, Repr

/-- Modelled from the spec: GstNvEncoderRCMode, the rate-control mode enum
declared in gstnvencoder.h (repository code outside src/).  The spec lists
constant QP, variable bitrate, constant bitrate and a device default. -/
inductive RCMode
  | rcDefault
  | constqp
  | cbr
  | vbr
  | cbrLowdelayHq
  | cbrHq
  | vbrHq
deriving DecidableEq, Repr

/-- NV_ENC_H264_ENTROPY_CODING_MODE values used by the encoder. -/
inductive EntropyMode
  | autoselect
  | cabac
  | cavlc
deriving DecidableEq, Repr

/-- The profile GUID constants the encoder selects between
(NV_ENC_CODEC_PROFILE_AUTOSELECT_GUID and the H.264 profile GUIDs). -/
inductive ProfileGUID
  | autoselect
  | baseline
  | main
  | high
  | progressiveHigh
  | constrainedHigh
  | high444
deriving DecidableEq, Repr

/-- The two raw input pixel formats the encoder's sink caps can carry
(NV12 and Y444, see gst_nv_h264_encoder_create_class_data). -/
inductive VideoFormat
  | NV12
  | Y444
deriving DecidableEq, Repr

/-- The slice of GstVideoInfo that gst_nv_h264_encoder_set_format's
embedded logic reads: the raw format and whether the stream is
interlaced.  Resolution, frame rate and colorimetry only feed init-param
and VUI fields no claim references. -/
structure VideoInfo where
  format : VideoFormat
  interlaced : Bool
deriving DecidableEq, Repr

/-- The fields of GstNvH264EncoderDeviceCaps read by the embedded
functions (the full struct holds many more independently probed
capability integers). -/
structure DeviceCaps where
  field_encoding : Int
  cabac : Int
  dyn_bitrate_change : Int
  max_bframes : Int
deriving DecidableEq, Repr

/-- NV_ENC_QP: per-frame-type quantizer triple (uint32_t fields). -/
structure NvQp where
  qpInterP : Nat
  qpInterB : Nat
  qpIntra : Nat
deriving DecidableEq, Repr

/-- The NV_ENC_RC_PARAMS fields written by the embedded functions. -/
structure NvRcParams where
  rateControlMode : RCMode
  averageBitRate : Nat
  maxBitRate : Nat
  vbvBufferSize : Nat
  enableMinQP : Bool
  enableMaxQP : Bool
  minQP : NvQp
  maxQP : NvQp
  enableAQ : Bool
  aqStrength : Nat
  enableTemporalAQ : Bool
  enableLookahead : Bool
  lookaheadDepth : Nat
  disableIadapt : Bool
  disableBadapt : Bool
  strictGOPTarget : Bool
  enableNonRefP : Bool
  zeroReorderDelay : Bool
  targetQuality : Nat
  targetQualityLSB : Nat
deriving DecidableEq, Repr

/-- The NV_ENC_CONFIG_H264 fields written by the embedded functions. -/
structure NvH264Config where
  level : Nat
  chromaFormatIDC : Nat
  idrPeriod : Nat
  outputAUD : Bool
  disableSPSPPS : Nat
  repeatSPSPPS : Nat
  entropyCodingMode : EntropyMode
deriving DecidableEq, Repr

/-- The NV_ENC_CONFIG fields written by the embedded functions. -/
structure NvEncConfig where
  gopLength : Nat
  frameIntervalP : Int
  profileGUID : ProfileGUID
  rcParams : NvRcParams
  h264Config : NvH264Config
deriving DecidableEq, Repr

/-- An all-zero NV_ENC_CONFIG, standing for a zero-initialized preset
configuration in concrete evaluations. -/
def emptyConfig : NvEncConfig where
  gopLength := 0
  frameIntervalP := 0
  profileGUID := .autoselect
  rcParams := {
    rateControlMode := .rcDefault
    averageBitRate := 0
    maxBitRate := 0
    vbvBufferSize := 0
    enableMinQP := false
    enableMaxQP := false
    minQP := { qpInterP := 0, qpInterB := 0, qpIntra := 0 }
    maxQP := { qpInterP := 0, qpInterB := 0, qpIntra := 0 }
    enableAQ := false
    aqStrength := 0
    enableTemporalAQ := false
    enableLookahead := false
    lookaheadDepth := 0
    disableIadapt := false
    disableBadapt := false
    strictGOPTarget := false
    enableNonRefP := false
    zeroReorderDelay := false
    targetQuality := 0
    targetQualityLSB := 0 }
  h264Config := {
    level := 0
    chromaFormatIDC := 0
    idrPeriod := 0
    outputAUD := false
    disableSPSPPS := 0
    repeatSPSPPS := 0
    entropyCodingMode := .autoselect }

/-- The mutable state of a GstNvH264Encoder instance: the three dirty
flags, the packetized flag and the property bag, exactly the fields of
struct _GstNvH264Encoder (the parser handle and mutex are external). -/
structure NvH264Encoder where
  init_param_updated : Bool
  rc_param_updated : Bool
  bitrate_updated : Bool
  packetized : Bool
  preset : NvPreset
  weighted_pred : Bool
  gop_size : Int
  bframes : Nat
  rc_mode : RCMode
  qp_const_i : Int
  qp_const_p : Int
  qp_const_b : Int
  bitrate : Nat
  max_bitrate : Nat
  vbv_buffer_size : Nat
  rc_lookahead : Nat
  i_adapt : Bool
  b_adapt : Bool
  spatial_aq : Bool
  temporal_aq : Bool
  zero_latency : Bool
  non_ref_p : Bool
  strict_gop : Bool
  aq_strength : Nat
  qp_min_i : Int
  qp_min_p : Int
  qp_min_b : Int
  qp_max_i : Int
  qp_max_p : Int
  qp_max_b : Int
  const_quality : ℚ
  aud : Bool
  cabac : Bool
  repeat_sequence_header : Bool
deriving DecidableEq, Repr

/-- gst_nv_h264_encoder_init: the default property values (all other
fields are zero-initialized by GObject); cabac defaults to TRUE exactly
when the device capability is set. -/
def initEncoder (cabacCap : Bool) : NvH264Encoder where
  init_param_updated := false
  rc_param_updated := false
  bitrate_updated := false
  packetized := false
  preset := .presetDefault
  weighted_pred := false
  gop_size := 75
  bframes := 0
  rc_mode := .vbr
  qp_const_i := -1
  qp_const_p := -1
  qp_const_b := -1
  bitrate := 0
  max_bitrate := 0
  vbv_buffer_size := 0
  rc_lookahead := 0
  i_adapt := false
  b_adapt := false
  spatial_aq := false
  temporal_aq := false
  zero_latency := false
  non_ref_p := false
  strict_gop := false
  aq_strength := 0
  qp_min_i := -1
  qp_min_p := -1
  qp_min_b := -1
  qp_max_i := -1
  qp_max_p := -1
  qp_max_b := -1
  const_quality := 0
  aud := true
  cabac := cabacCap
  repeat_sequence_header := false

/-- The property identifiers the set_property / get_property switches
handle (the writable subset of the enum in gstnvh264encoder.cpp). -/
inductive NvPropId
  | preset
  | weightedPred
  | gopSize
  | bframes
  | rcMode
  | qpConstI
  | qpConstP
  | qpConstB
  | bitrate
  | maxBitrate
  | vbvBufferSize
  | rcLookahead
  | iAdapt
  | bAdapt
  | spatialAq
  | temporalAq
  | zeroLatency
  | nonRefP
  | strictGop
  | aqStrength
  | qpMinI
  | qpMinP
  | qpMinB
  | qpMaxI
  | qpMaxP
  | qpMaxB
  | constQuality
  | aud
  | cabac
  | repeatSequenceHeader
deriving DecidableEq, Repr

/-- A GValue carrying one of the property types used by the encoder. -/
inductive GPropValue
  | b (v : Bool)
  | i (v : Int)
  | u (v : Nat)
  | d (v : ℚ)
  | preset (v : NvPreset)
  | rc (v : RCMode)
deriving DecidableEq, Repr

section SetProperty

/-- update_boolean: compare-and-store plus dirty-flag marking at the
UPDATE_INIT_PARAM level. -/
def updBoolInit (s : NvH264Encoder) (old new : Bool)
    (store : NvH264Encoder → Bool → NvH264Encoder) : NvH264Encoder :=
  if old = new then s else { store s new with init_param_updated := true }

/-- update_boolean at the UPDATE_RC_PARAM level. -/
def updBoolRc (s : NvH264Encoder) (old new : Bool)
    (store : NvH264Encoder → Bool → NvH264Encoder) : NvH264Encoder :=
  if old = new then s else { store s new with rc_param_updated := true }

/-- update_int at the UPDATE_RC_PARAM level. -/
def updIntRc (s : NvH264Encoder) (old new : Int)
    (store : NvH264Encoder → Int → NvH264Encoder) : NvH264Encoder :=
  if old = new then s else { store s new with rc_param_updated := true }

/-- gst_nv_h264_encoder_set_property: the full property switch.  Each
case follows the update_boolean / update_int / update_uint /
update_double pattern: compare with the stored field the source names,
store on difference, and raise the dirty flag of the property's level.
A GValue of the wrong type cannot reach a case through GObject, so such
combinations leave the state unchanged. -/
def gst_nv_h264_encoder_set_property (s : NvH264Encoder) (pid : NvPropId)
    (v : GPropValue) : NvH264Encoder :=
  match pid, v with
  | .preset, .preset p =>
      if p = s.preset then s
      else { s with preset := p, init_param_updated := true }
  | .weightedPred, .b val =>
      updBoolInit s s.weighted_pred val (fun t x => { t with weighted_pred := x })
  | .gopSize, .i val =>
      if s.gop_size = val then s
      else { s with gop_size := val, init_param_updated := true }
  | .bframes, .u val =>
      if s.bframes = val then s
      else { s with bframes := val, init_param_updated := true }
  | .rcMode, .rc m =>
      if m = s.rc_mode then s
      else { s with rc_mode := m, rc_param_updated := true }
  | .qpConstI, .i val =>
      updIntRc s s.qp_const_i val (fun t x => { t with qp_const_i := x })
  | .qpConstP, .i val =>
      updIntRc s s.qp_const_p val (fun t x => { t with qp_const_p := x })
  | .qpConstB, .i val =>
      updIntRc s s.qp_const_b val (fun t x => { t with qp_const_b := x })
  | .bitrate, .u val =>
      if s.bitrate = val then s
      else { s with bitrate := val, bitrate_updated := true }
  | .maxBitrate, .u val =>
      if s.max_bitrate = val then s
      else { s with max_bitrate := val, bitrate_updated := true }
  | .vbvBufferSize, .u val =>
      if s.vbv_buffer_size = val then s
      else { s with vbv_buffer_size := val, rc_param_updated := true }
  | .rcLookahead, .u val =>
      if s.rc_lookahead = val then s
      else { s with rc_lookahead := val, init_param_updated := true }
  | .iAdapt, .b val =>
      updBoolRc s s.i_adapt val (fun t x => { t with i_adapt := x })
  | .bAdapt, .b val =>
      updBoolRc s s.b_adapt val (fun t x => { t with b_adapt := x })
  | .spatialAq, .b val =>
      updBoolRc s s.spatial_aq val (fun t x => { t with spatial_aq := x })
  | .temporalAq, .b val =>
      updBoolRc s s.temporal_aq val (fun t x => { t with temporal_aq := x })
  | .zeroLatency, .b val =>
      updBoolRc s s.zero_latency val (fun t x => { t with zero_latency := x })
  | .nonRefP, .b val =>
      updBoolRc s s.non_ref_p val (fun t x => { t with non_ref_p := x })
  | .strictGop, .b val =>
      updBoolRc s s.strict_gop val (fun t x => { t with strict_gop := x })
  | .aqStrength, .u val =>
      if s.aq_strength = val then s
      else { s with aq_strength := val, rc_param_updated := true }
  | .qpMinI, .i val =>
      updIntRc s s.qp_min_i val (fun t x => { t with qp_min_i := x })
  | .qpMinP, .i val =>
      updIntRc s s.qp_min_p val (fun t x => { t with qp_min_p := x })
  | .qpMinB, .i val =>
      updIntRc s s.qp_min_b val (fun t x => { t with qp_min_b := x })
  | .qpMaxI, .i val =>
      updIntRc s s.qp_min_i val (fun t x => { t with qp_min_i := x })
  | .qpMaxP, .i val =>
      updIntRc s s.qp_min_p val (fun t x => { t with qp_min_p := x })
  | .qpMaxB, .i val =>
      updIntRc s s.qp_min_b val (fun t x => { t with qp_min_b := x })
  | .constQuality, .d val =>
      if s.const_quality = val then s
      else { s with const_quality := val, rc_param_updated := true }
  | .aud, .b val =>
      updBoolInit s s.aud val (fun t x => { t with aud := x })
  | .cabac, .b val =>
      updBoolInit s s.cabac val (fun t x => { t with cabac := x })
  | .repeatSequenceHeader, .b val =>
      updBoolInit s s.repeat_sequence_header val
        (fun t x => { t with repeat_sequence_header := x })
  | _, _ => s

/-- gst_nv_h264_encoder_get_property: the read switch over the same
properties. -/
def gst_nv_h264_encoder_get_property (s : NvH264Encoder) (pid : NvPropId) :
    GPropValue :=
  match pid with
  | .preset => .preset s.preset
  | .weightedPred => .b s.weighted_pred
  | .gopSize => .i s.gop_size
  | .bframes => .u s.bframes
  | .rcMode => .rc s.rc_mode
  | .qpConstI => .i s.qp_const_i
  | .qpConstP => .i s.qp_const_p
  | .qpConstB => .i s.qp_const_b
  | .bitrate => .u s.bitrate
  | .maxBitrate => .u s.max_bitrate
  | .vbvBufferSize => .u s.vbv_buffer_size
  | .rcLookahead => .u s.rc_lookahead
  | .iAdapt => .b s.i_adapt
  | .bAdapt => .b s.b_adapt
  | .spatialAq => .b s.spatial_aq
  | .temporalAq => .b s.temporal_aq
  | .zeroLatency => .b s.zero_latency
  | .nonRefP => .b s.non_ref_p
  | .strictGop => .b s.strict_gop
  | .aqStrength => .u s.aq_strength
  | .qpMinI => .i s.qp_min_i
  | .qpMinP => .i s.qp_min_p
  | .qpMinB => .i s.qp_min_b
  | .qpMaxI => .i s.qp_max_i
  | .qpMaxP => .i s.qp_max_p
  | .qpMaxB => .i s.qp_max_b
  | .constQuality => .d s.const_quality
  | .aud => .b s.aud
  | .cabac => .b s.cabac
  | .repeatSequenceHeader => .b s.repeat_sequence_header

end SetProperty

section SetFormat

/-- The distinguishable failure paths of gst_nv_h264_encoder_set_format
(the C function returns FALSE in each, with a distinct error message;
the spec's taxonomy names the downstream-intersection failures
UnsupportedFormat). -/
inductive SetFormatError
  | noDownstreamProfile
  | interlacedUnsupported
  | unsupportedFormat444
deriving DecidableEq, Repr

/-- What set_format produces on success: the updated encoder state (the
possibly forced bframes count, the packetized flag and the cleared dirty
flags), the filled NV_ENC_CONFIG, and whether a g_object_notify for the
bframes property is emitted. -/
structure SetFormatResult where
  encoder : NvH264Encoder
  config : NvEncConfig
  notifyBFrames : Bool
deriving DecidableEq, Repr

/-- The profiles erased from the downstream set for interlaced input. -/
def interlaceErase (ps : List String) : List String :=
  ps.filter (fun p => !(p == "progressive-high" || p == "constrained-high" ||
    p == "constrained-baseline" || p == "baseline"))

/-- Whether any downstream profile supports B-frames (the loop over the
downstream set accepting high, main and progressive-high). -/
def profilesSupportBFrame (ps : List String) : Bool :=
  ps.any (fun p => p == "high" || p == "main" || p == "progressive-high")

/-- Lexicographic strict order on character lists, by code point; on the
ASCII profile-name strings this coincides with std::string's byte-wise
operator<. -/
def strLtB : List Char → List Char → Bool
  | [], [] => false
  | [], _ :: _ => true
  | _ :: _, [] => false
  | a :: as, b :: bs =>
    if a.toNat < b.toNat then true
    else if b.toNat < a.toNat then false
    else strLtB as bs

/-- Iteration begin of a std::set of strings: the lexicographically
smallest member. -/
def setBegin : List String → Option String
  | [] => none
  | x :: xs =>
    some (xs.foldl (fun m y => if strLtB y.data m.data then y else m) x)

/-- The builder part of gst_nv_h264_encoder_set_format, from the
prop-lock acquisition to the unlock: fills the NV_ENC_CONFIG from the
property bag, forces bframes to zero when the downstream profiles do not
support B-frames, clears the three dirty flags, and selects the final
profile GUID.  The preset configuration obtained from
NvEncGetEncodePresetConfig is the presetCfg input; fields this code does
not write keep their preset values. -/
def set_format_body (caps : DeviceCaps) (presetCfg : NvEncConfig)
    (s : NvH264Encoder) (ps : List String) (selected0 : ProfileGUID)
    (supportsB : Bool) (packetized : Bool) : SetFormatResult :=
  -- GOP structure (config->gopLength / config->frameIntervalP); inside
  -- the gop_size > 0 branch a requested bframes count without downstream
  -- support is aborted and the stored property forced to zero.
  let bframeAborted : Bool :=
    decide (s.gop_size > 0) && decide (0 < s.bframes) && !supportsB
  let bframes' : Nat := if bframeAborted then 0 else s.bframes
  let gopLength : Nat :=
    if s.gop_size < 0 then NVENC_INFINITE_GOPLENGTH
    else if s.gop_size > 0 then u32 s.gop_size
    else 1
  let frameIntervalP : Int :=
    if s.gop_size < 0 then 1
    else if s.gop_size > 0 then (bframes' : Int) + 1
    else 0
  -- rc_mode: Default becomes ConstQP when an I-frame constant QP is set.
  let rcMode : RCMode :=
    if s.rc_mode = RCMode.rcDefault ∧ s.qp_const_i ≥ 0 then RCMode.constqp
    else s.rc_mode
  -- minQP cascade: unset P inherits I, unset B inherits the (possibly
  -- inherited) P.
  let minTriple : NvQp :=
    { qpIntra := u32 s.qp_min_i
      qpInterP := if s.qp_min_p ≥ 0 then u32 s.qp_min_p else u32 s.qp_min_i
      qpInterB := if s.qp_min_b ≥ 0 then u32 s.qp_min_b
        else if s.qp_min_p ≥ 0 then u32 s.qp_min_p else u32 s.qp_min_i }
  -- maxQP cascade; the ConstQP branch at the end of the rc-params block
  -- re-runs the identical assignments (reading qp_max_*), so the final
  -- maxQP is this triple whenever either condition holds.
  let maxTriple : NvQp :=
    { qpIntra := u32 s.qp_max_i
      qpInterP := if s.qp_max_p ≥ 0 then u32 s.qp_max_p else u32 s.qp_max_i
      qpInterB := if s.qp_max_b ≥ 0 then u32 s.qp_max_b
        else if s.qp_max_p ≥ 0 then u32 s.qp_max_p else u32 s.qp_max_i }
  let maxQpActive : Prop := s.qp_max_i ≥ 0 ∨
    (rcMode = RCMode.constqp ∧ s.qp_const_i ≥ 0)
  let scaled : Nat := u32 (ctrunc (s.const_quality * 256))
  let rc : NvRcParams :=
    { rateControlMode := rcMode
      averageBitRate := if s.bitrate ≠ 0 then u32n (s.bitrate * 1024)
        else presetCfg.rcParams.averageBitRate
      maxBitRate := if s.max_bitrate ≠ 0 then u32n (s.max_bitrate * 1024)
        else presetCfg.rcParams.maxBitRate
      vbvBufferSize := if s.vbv_buffer_size ≠ 0 then
        u32n (s.vbv_buffer_size * 1024) else presetCfg.rcParams.vbvBufferSize
      enableMinQP := if s.qp_min_i ≥ 0 then true
        else presetCfg.rcParams.enableMinQP
      enableMaxQP := if maxQpActive then true
        else presetCfg.rcParams.enableMaxQP
      minQP := if s.qp_min_i ≥ 0 then minTriple else presetCfg.rcParams.minQP
      maxQP := if maxQpActive then maxTriple else presetCfg.rcParams.maxQP
      enableAQ := if s.spatial_aq then true else presetCfg.rcParams.enableAQ
      aqStrength := if s.spatial_aq then s.aq_strength
        else presetCfg.rcParams.aqStrength
      enableTemporalAQ := s.temporal_aq
      enableLookahead := if s.rc_lookahead ≠ 0 then true
        else presetCfg.rcParams.enableLookahead
      lookaheadDepth := if s.rc_lookahead ≠ 0 then s.rc_lookahead
        else presetCfg.rcParams.lookaheadDepth
      disableIadapt := if s.rc_lookahead ≠ 0 then !s.i_adapt
        else presetCfg.rcParams.disableIadapt
      disableBadapt := if s.rc_lookahead ≠ 0 then !s.b_adapt
        else presetCfg.rcParams.disableBadapt
      strictGOPTarget := s.strict_gop
      enableNonRefP := s.non_ref_p
      zeroReorderDelay := s.zero_latency
      -- fixed-point constant-quality target: guint scaled =
      -- (gint) (const_quality * 256.0); hi and lo bytes cast to guint8.
      targetQuality := if s.const_quality ≠ 0 then scaled / 256 % 256
        else presetCfg.rcParams.targetQuality
      targetQualityLSB := if s.const_quality ≠ 0 then scaled % 256
        else presetCfg.rcParams.targetQualityLSB }
  -- profile selection: a canonical profile when frameIntervalP > 1,
  -- otherwise a match on the first (lexicographically smallest) element
  -- of the downstream set.
  let selected1 : ProfileGUID :=
    if selected0 = ProfileGUID.autoselect ∧ frameIntervalP > 1 then
      if ps.contains "main" then ProfileGUID.main
      else if ps.contains "high" then ProfileGUID.high
      else if ps.contains "progressive-high" then ProfileGUID.progressiveHigh
      else selected0
    else selected0
  let selected : ProfileGUID :=
    if selected1 = ProfileGUID.autoselect then
      match setBegin ps with
      | some b =>
          if b = "baseline" ∨ b = "constrained-baseline" then
            ProfileGUID.baseline
          else if b = "main" then ProfileGUID.main
          else if b = "progressive-high" then ProfileGUID.progressiveHigh
          else if b = "constrained-high" then ProfileGUID.constrainedHigh
          else ProfileGUID.autoselect
      | none => ProfileGUID.autoselect
    else selected1
  let h : NvH264Config :=
    { level := 0  -- NV_ENC_LEVEL_AUTOSELECT
      chromaFormatIDC := if selected = ProfileGUID.high444 then 3 else 1
      idrPeriod := gopLength
      outputAUD := s.aud
      disableSPSPPS := if s.repeat_sequence_header then 0
        else if packetized then 1 else 0
      repeatSPSPPS := if s.repeat_sequence_header then 1
        else presetCfg.h264Config.repeatSPSPPS
      entropyCodingMode :=
        if caps.cabac ≠ 0 ∧ selected ≠ ProfileGUID.baseline then
          if s.cabac then EntropyMode.cabac else EntropyMode.cavlc
        else EntropyMode.autoselect }
  { encoder := { s with
      bframes := bframes'
      packetized := packetized
      init_param_updated := false
      bitrate_updated := false
      rc_param_updated := false }
    config := { presetCfg with
      gopLength := gopLength
      frameIntervalP := frameIntervalP
      profileGUID := selected
      rcParams := rc
      h264Config := h }
    notifyBFrames := bframeAborted }

/-- gst_nv_h264_encoder_set_format: downstream-profile checks (empty set,
interlaced filtering, 4:4:4 capability), initial profile / B-frame
eligibility determination, then the config build.  The downstream
profile set and the packetized flag are the outputs of
gst_nv_h264_encoder_get_downstream_profiles_and_format, which reads
external caps; they are inputs here. -/
def gst_nv_h264_encoder_set_format (caps : DeviceCaps) (info : VideoInfo)
    (presetCfg : NvEncConfig) (s : NvH264Encoder) (ps0 : List String)
    (packetized : Bool) : Except SetFormatError SetFormatResult :=
  if ps0.isEmpty then .error .noDownstreamProfile
  else
    -- the erase-and-recheck happens only for interlaced input; for
    -- progressive input ps = ps0 is nonempty and the check is vacuous
    let ps := if info.interlaced then interlaceErase ps0 else ps0
    if ps.isEmpty then .error .interlacedUnsupported
    else if info.format = VideoFormat.Y444 ∧ ¬ ps.contains "high-4:4:4" then
      .error .unsupportedFormat444
    else
      let selected0 : ProfileGUID :=
        if info.format = VideoFormat.Y444 then ProfileGUID.high444
        else ProfileGUID.autoselect
      let supportsB : Bool :=
        if info.format = VideoFormat.Y444 then true
        else profilesSupportBFrame ps
      .ok (set_format_body caps presetCfg s ps selected0 supportsB packetized)

end SetFormat

section CheckReconfigure

/-- GstNvEncoderReconfigure (gstnvencoder.h): the three outcomes of the
frame-boundary reconfiguration check. -/
inductive NvReconfigure
  | nothing
  | bitrateOnly
  | full
deriving DecidableEq, Repr

/-- The flag clearing performed before releasing the prop lock in
gst_nv_h264_encoder_check_reconfigure. -/
def clearDirty (s : NvH264Encoder) : NvH264Encoder :=
  { s with
    init_param_updated := false
    rc_param_updated := false
    bitrate_updated := false }

/-- gst_nv_h264_encoder_check_reconfigure: full reconfiguration if an
init-param or rc-param update is pending; a lightweight bitrate update
(writing bitrate*1024 and max-bitrate*1024 into the live rc params) if
only the bitrate is pending and the device supports dynamic bitrate
change, escalating to full otherwise; no-op without pending updates.
All three dirty flags are cleared on every path. -/
def gst_nv_h264_encoder_check_reconfigure (caps : DeviceCaps)
    (s : NvH264Encoder) (config : NvEncConfig) :
    NvReconfigure × NvH264Encoder × NvEncConfig :=
  if s.init_param_updated || s.rc_param_updated then
    (.full, clearDirty s, config)
  else if s.bitrate_updated then
    if caps.dyn_bitrate_change > 0 then
      (.bitrateOnly, clearDirty s,
        { config with rcParams := { config.rcParams with
            averageBitRate := u32n (s.bitrate * 1024)
            maxBitRate := u32n (s.max_bitrate * 1024) } })
    else
      (.full, clearDirty s, config)
  else
    (.nothing, clearDirty s, config)

end CheckReconfigure

section Packager

/-- The Annex-B start code delimiting elementary units in the raw
encoder output. -/
def startCode : List Nat := [0, 0, 0, 1]

/-- Modelled from the spec: gst_h264_parser_identify_nalu (the H.264
bitstream NAL walker from gst/codecparsers, repository code not under
src/) identifies the start-code-delimited elementary units of the raw
output one after another; a raw output whose units carry the payloads
`units` is their start-code-prefixed concatenation, and the walk yields
exactly `units`. -/
def annexBStream (units : List (List Nat)) : List Nat :=
  (units.map (fun u => startCode ++ u)).flatten

/-- GST_WRITE_UINT32_BE: the 4-byte big-endian encoding of a 32-bit
value. -/
def writeUint32BE (n : Nat) : List Nat :=
  [n / 2 ^ 24 % 256, n / 2 ^ 16 % 256, n / 2 ^ 8 % 256, n % 256]

/-- One loop iteration of the packetized branch of
gst_nv_h264_encoder_create_output_buffer: a fresh memory block of
size + 4 bytes holding the big-endian unit size followed by the unit
payload. -/
def packagedNal (u : List Nat) : List Nat :=
  writeUint32BE u.length ++ u

/-- The packetized branch of gst_nv_h264_encoder_create_output_buffer:
one length-prefixed memory per identified unit, appended in parse
order. -/
def create_output_buffer_packetized (units : List (List Nat)) :
    List (List Nat) :=
  units.map packagedNal

/-- Removing the 4-byte length prefix from one emitted memory block. -/
def dropLen4 (m : List Nat) : List Nat := m.drop 4

end Packager

section ClaimSideDefinitions

/-- A sample device-capability record used for concrete evaluations
(CABAC and dynamic bitrate change supported, progressive only, up to
four B-frames). -/
def sampleCaps : DeviceCaps where
  field_encoding := 0
  cabac := 1
  dyn_bitrate_change := 1
  max_bframes := 4

/-- A device-capability record without dynamic bitrate change support. -/
def sampleCapsNoDynBitrate : DeviceCaps where
  field_encoding := 0
  cabac := 1
  dyn_bitrate_change := 0
  max_bframes := 4

/-- The fixed priority order of claim C2 over downstream profile
names. -/
def specProfilePriority : List String :=
  ["main", "high", "progressive-high", "constrained-high",
   "constrained-baseline", "baseline", "high-4:4:4"]

/-- Claim C2's selection rule: the first profile of the claimed priority
order present in the downstream set. -/
def specPriorityPick (ps : List String) : Option String :=
  specProfilePriority.find? (fun p => ps.contains p)

/-- The profile GUID an H.264 profile name denotes, following the
name/GUID correspondence of gst_nv_h264_encoder_create_class_data
(baseline and constrained-baseline both come from the baseline GUID). -/
def profileGUIDOfName (p : String) : ProfileGUID :=
  if p = "baseline" ∨ p = "constrained-baseline" then .baseline
  else if p = "main" then .main
  else if p = "high" then .high
  else if p = "progressive-high" then .progressiveHigh
  else if p = "constrained-high" then .constrainedHigh
  else if p = "high-4:4:4" then .high444
  else .autoselect

/-- The selection rule the source actually implements in the
else-branch of the profile pick (amended claim C2): only the first
(lexicographically smallest) element of the downstream set is examined;
an unhandled first element leaves the profile GUID at autoselect. -/
def profileFromSetBegin (ps : List String) : ProfileGUID :=
  match setBegin ps with
  | some b =>
      if b = "baseline" ∨ b = "constrained-baseline" then ProfileGUID.baseline
      else if b = "main" then ProfileGUID.main
      else if b = "progressive-high" then ProfileGUID.progressiveHigh
      else if b = "constrained-high" then ProfileGUID.constrainedHigh
      else ProfileGUID.autoselect
  | none => ProfileGUID.autoselect

end ClaimSideDefinitions

section HelperLemmas

theorem u32_eq_self {x : Int} (h0 : 0 ≤ x) (h1 : x < 2 ^ 32) :
    (u32 x : Int) = x := by
  rw [u32, Int.emod_eq_of_lt h0 h1, Int.toNat_of_nonneg h0]

theorem ctrunc_eq_floor {q : ℚ} (h : 0 ≤ q) : ctrunc q = ⌊q⌋ := by
  rw [ctrunc, Rat.floor_def,
    Int.tdiv_eq_ediv (Rat.num_nonneg.mpr h) (by positivity)]

theorem isEmpty_false_of_ne_nil {α : Type} {l : List α} (h : l ≠ []) :
    l.isEmpty = false := by
  cases l with
  | nil => exact absurd rfl h
  | cons a l => rfl

end HelperLemmas

/-- C1: the claim states that a set-property call on qp-max-t stores the
value into the max-QP field for t and leaves the min-QP field for t
unchanged.  The code does the opposite: evaluating the embedded
set_property at the failing input (fresh instance, qp-max-p := 30) shows
the value lands in qp_min_p, qp_max_p stays -1, a subsequent
get-property on qp-max-p still returns -1, and the rc dirty flag is
raised for the min-field change — the copy-paste slip the source's own
property documentation ("Maximum QP value for P frame") contradicts. -/
theorem c1_qp_max_property_stores_into_min_field :
    (gst_nv_h264_encoder_set_property (initEncoder true) .qpMaxP
        (.i 30)).qp_max_p = -1 ∧
    (gst_nv_h264_encoder_set_property (initEncoder true) .qpMaxP
        (.i 30)).qp_min_p = 30 ∧
    gst_nv_h264_encoder_get_property
        (gst_nv_h264_encoder_set_property (initEncoder true) .qpMaxP (.i 30))
        .qpMaxP = .i (-1) ∧
    (gst_nv_h264_encoder_set_property (initEncoder true) .qpMaxP
        (.i 30)).rc_param_updated = true :=
  ⟨by decide, by decide, by decide, by decide⟩

/-- C2 counterexample: with the downstream set consisting of "high"
alone (input not 4:4:4, frameIntervalP = 1), the claimed priority order
picks "high" (whose GUID is the high profile), but the code leaves the
profile GUID at autoselect, because its else-branch only examines the
set's first element and has no case for "high". -/
theorem c2_priority_order_counterexample :
    specPriorityPick ["high"] = some "high" ∧
    profileGUIDOfName "high" = ProfileGUID.high ∧
    (gst_nv_h264_encoder_set_format sampleCaps ⟨.NV12, false⟩ emptyConfig
        (initEncoder true) ["high"] false).map
      (fun r => r.config.profileGUID) = .ok ProfileGUID.autoselect ∧
    ProfileGUID.autoselect ≠ ProfileGUID.high :=
  ⟨by decide, by decide, rfl, by decide⟩

/-- C2 amended: when the input is not 4:4:4 and no multi-frame GOP
structure is in effect (bframes = 0, so frameIntervalP never exceeds 1),
the final profile is determined solely by the lexicographically smallest
element of the non-empty downstream profile set: baseline or
constrained-baseline select the baseline profile, main selects main,
progressive-high selects progressive-high, constrained-high selects
constrained-high, and any other smallest element leaves the profile GUID
at autoselect. -/
theorem c2_amended_profile_from_first_element (caps : DeviceCaps)
    (presetCfg : NvEncConfig) (s : NvH264Encoder) (ps : List String)
    (pk : Bool) (hne : ps ≠ []) (hbf : s.bframes = 0) :
    (gst_nv_h264_encoder_set_format caps ⟨.NV12, false⟩ presetCfg s ps pk).map
      (fun r => r.config.profileGUID) = .ok (profileFromSetBegin ps) := by
  have hemp : ps.isEmpty = false := isEmpty_false_of_ne_nil hne
  simp only [gst_nv_h264_encoder_set_format, hemp, Bool.false_eq_true,
    if_false, reduceCtorEq]
  simp only [set_format_body, Except.map]
  simp only [hbf]
  have h00 : (decide (0 < 0)) = false := by decide
  simp only [h00, Bool.and_false, Bool.false_and, if_false, Bool.false_eq_true,
    ite_self, Nat.cast_zero, zero_add, false_and, true_and]
  rcases lt_trichotomy s.gop_size 0 with hg | hg | hg
  · have hg2 : ¬ s.gop_size > 0 := by omega
    simp [hg, hg2, profileFromSetBegin]
  · have hg2 : ¬ s.gop_size > 0 := by omega
    have hg3 : ¬ s.gop_size < 0 := by omega
    simp [hg2, hg3, profileFromSetBegin]
  · have hg3 : ¬ s.gop_size < 0 := by omega
    simp [hg, hg3, profileFromSetBegin]

/-- Witness for the amended C2 theorem: with downstream profiles
constrained-high and main, the first (lexicographically smallest)
element is constrained-high and the selected profile GUID is the
constrained-high profile. -/
theorem c2_amended_profile_from_first_element_witness :
    (gst_nv_h264_encoder_set_format sampleCaps ⟨.NV12, false⟩ emptyConfig
        (initEncoder true) ["constrained-high", "main"] false).map
      (fun r => r.config.profileGUID) = .ok ProfileGUID.constrainedHigh :=
  (c2_amended_profile_from_first_element sampleCaps emptyConfig
      (initEncoder true) ["constrained-high", "main"] false
      (by decide) rfl).trans
    (congrArg Except.ok
      (by decide : profileFromSetBegin ["constrained-high", "main"]
        = ProfileGUID.constrainedHigh))

/-- C3: the frame-boundary reconfiguration check — any pending
init-param or rc-param update selects full reconfiguration with the
config untouched; a pending bitrate-only update on a device with
dynamic bitrate change support selects the lightweight bitrate update,
writing bitrate*1024 and max-bitrate*1024 into the live rate-control
params while clearing BitrateDirty and leaving InitParamDirty and
RateControlDirty unset; a pending bitrate-only update without the
capability escalates to full reconfiguration; and with no pending
updates the check is a no-op. -/
theorem c3_check_reconfigure_tiers (caps : DeviceCaps) (s : NvH264Encoder)
    (config : NvEncConfig) :
    (s.init_param_updated = true ∨ s.rc_param_updated = true →
      gst_nv_h264_encoder_check_reconfigure caps s config =
        (.full, clearDirty s, config)) ∧
    (s.init_param_updated = false → s.rc_param_updated = false →
      s.bitrate_updated = true → 0 < caps.dyn_bitrate_change →
      s.bitrate * 1024 < 2 ^ 32 → s.max_bitrate * 1024 < 2 ^ 32 →
      ∃ cfg', gst_nv_h264_encoder_check_reconfigure caps s config =
          (.bitrateOnly, clearDirty s, cfg') ∧
        cfg'.rcParams.averageBitRate = s.bitrate * 1024 ∧
        cfg'.rcParams.maxBitRate = s.max_bitrate * 1024 ∧
        (clearDirty s).bitrate_updated = false ∧
        (clearDirty s).init_param_updated = false ∧
        (clearDirty s).rc_param_updated = false) ∧
    (s.init_param_updated = false → s.rc_param_updated = false →
      s.bitrate_updated = true → caps.dyn_bitrate_change ≤ 0 →
      gst_nv_h264_encoder_check_reconfigure caps s config =
        (.full, clearDirty s, config)) ∧
    (s.init_param_updated = false → s.rc_param_updated = false →
      s.bitrate_updated = false →
      gst_nv_h264_encoder_check_reconfigure caps s config =
        (.nothing, s, config)) := by
  refine ⟨fun h => ?_, fun h1 h2 h3 h4 h5 h6 => ?_, fun h1 h2 h3 h4 => ?_,
    fun h1 h2 h3 => ?_⟩
  · rcases h with h | h <;>
      simp [gst_nv_h264_encoder_check_reconfigure, h]
  · refine ⟨{ config with rcParams := { config.rcParams with
        averageBitRate := u32n (s.bitrate * 1024)
        maxBitRate := u32n (s.max_bitrate * 1024) } }, ?_, ?_, ?_, rfl, rfl, rfl⟩
    · simp [gst_nv_h264_encoder_check_reconfigure, h1, h2, h3, h4]
    · simpa [u32n] using Nat.mod_eq_of_lt h5
    · simpa [u32n] using Nat.mod_eq_of_lt h6
  · simp [gst_nv_h264_encoder_check_reconfigure, h1, h2, h3, Int.not_lt.mpr h4]
  · have hs : clearDirty s = s := by
      cases s
      simp_all [clearDirty]
    rw [← hs]
    simp [gst_nv_h264_encoder_check_reconfigure, h1, h2, h3, clearDirty]

/-- Witness for C3: with only the bitrate flag pending (bitrate 1000,
max-bitrate 2000) on a device advertising dynamic bitrate change, the
check selects the lightweight bitrate update with the scaled rates
written into the live rc params and all flags clear afterwards. -/
theorem c3_check_reconfigure_tiers_witness :
    ∃ cfg', gst_nv_h264_encoder_check_reconfigure sampleCaps
        { initEncoder true with
          bitrate_updated := true, bitrate := 1000, max_bitrate := 2000 }
        emptyConfig =
        (.bitrateOnly,
          clearDirty { initEncoder true with
            bitrate_updated := true, bitrate := 1000, max_bitrate := 2000 },
          cfg') ∧
      cfg'.rcParams.averageBitRate =
        ({ initEncoder true with
          bitrate_updated := true, bitrate := 1000,
          max_bitrate := 2000 } : NvH264Encoder).bitrate * 1024 ∧
      cfg'.rcParams.maxBitRate =
        ({ initEncoder true with
          bitrate_updated := true, bitrate := 1000,
          max_bitrate := 2000 } : NvH264Encoder).max_bitrate * 1024 ∧
      (clearDirty { initEncoder true with
        bitrate_updated := true, bitrate := 1000,
        max_bitrate := 2000 }).bitrate_updated = false ∧
      (clearDirty { initEncoder true with
        bitrate_updated := true, bitrate := 1000,
        max_bitrate := 2000 }).init_param_updated = false ∧
      (clearDirty { initEncoder true with
        bitrate_updated := true, bitrate := 1000,
        max_bitrate := 2000 }).rc_param_updated = false :=
  (c3_check_reconfigure_tiers sampleCaps
      { initEncoder true with
        bitrate_updated := true, bitrate := 1000, max_bitrate := 2000 }
      emptyConfig).2.1 (by decide) (by decide) (by decide) (by decide)
    (by decide) (by decide)

/-- C4: GOP-size handling when the session config is built — a negative
GOP size yields the infinite GOP length with frameIntervalP = 1 (P-only
cadence); a zero GOP size yields all-intra (gopLength = 1,
frameIntervalP = 0); a positive GOP size g yields gopLength = g and
frameIntervalP equal to the (possibly forced) stored bframes count plus
one. -/
theorem c4_gop_structure (caps : DeviceCaps) (presetCfg : NvEncConfig)
    (s : NvH264Encoder) (ps : List String) (sel0 : ProfileGUID)
    (supportsB : Bool) (pk : Bool) :
    (s.gop_size < 0 →
      (set_format_body caps presetCfg s ps sel0 supportsB pk).config.gopLength
          = NVENC_INFINITE_GOPLENGTH ∧
        (set_format_body caps presetCfg s ps sel0 supportsB
          pk).config.frameIntervalP = 1) ∧
    (s.gop_size = 0 →
      (set_format_body caps presetCfg s ps sel0 supportsB pk).config.gopLength
          = 1 ∧
        (set_format_body caps presetCfg s ps sel0 supportsB
          pk).config.frameIntervalP = 0) ∧
    (0 < s.gop_size → s.gop_size ≤ 2147483647 →
      ((set_format_body caps presetCfg s ps sel0 supportsB
            pk).config.gopLength : Int) = s.gop_size ∧
        (set_format_body caps presetCfg s ps sel0 supportsB
            pk).config.frameIntervalP =
          ((set_format_body caps presetCfg s ps sel0 supportsB
            pk).encoder.bframes : Int) + 1) := by
  refine ⟨fun h => ?_, fun h => ?_, fun h h2 => ?_⟩
  · constructor <;> simp [set_format_body, h]
  · constructor <;> simp [set_format_body, h]
  · have hneg : ¬ s.gop_size < 0 := by omega
    constructor
    · simp only [set_format_body, hneg, if_false, if_pos h, u32]
      rw [Int.emod_eq_of_lt (by omega) (by omega),
        Int.toNat_of_nonneg (by omega)]
    · simp [set_format_body, hneg, h]

/-- Witness for C4: gop-size -1 gives the infinite GOP with
frameIntervalP 1; gop-size 0 gives all-intra; gop-size 30 with two
B-frames and B-capable downstream gives gopLength 30 and
frameIntervalP 3. -/
theorem c4_gop_structure_witness :
    ((set_format_body sampleCaps emptyConfig
        { initEncoder true with gop_size := -1 } ["main"]
        ProfileGUID.autoselect true false).config.gopLength
      = NVENC_INFINITE_GOPLENGTH ∧
    (set_format_body sampleCaps emptyConfig
        { initEncoder true with gop_size := -1 } ["main"]
        ProfileGUID.autoselect true false).config.frameIntervalP = 1) ∧
    ((set_format_body sampleCaps emptyConfig
        { initEncoder true with gop_size := 0 } ["main"]
        ProfileGUID.autoselect true false).config.gopLength = 1 ∧
    (set_format_body sampleCaps emptyConfig
        { initEncoder true with gop_size := 0 } ["main"]
        ProfileGUID.autoselect true false).config.frameIntervalP = 0) ∧
    (((set_format_body sampleCaps emptyConfig
        { initEncoder true with gop_size := 30, bframes := 2 } ["main"]
        ProfileGUID.autoselect true false).config.gopLength : Int) = 30 ∧
    (set_format_body sampleCaps emptyConfig
        { initEncoder true with gop_size := 30, bframes := 2 } ["main"]
        ProfileGUID.autoselect true false).config.frameIntervalP = 3) :=
  ⟨(c4_gop_structure sampleCaps emptyConfig
      { initEncoder true with gop_size := -1 } ["main"]
      ProfileGUID.autoselect true false).1 (by decide),
   (c4_gop_structure sampleCaps emptyConfig
      { initEncoder true with gop_size := 0 } ["main"]
      ProfileGUID.autoselect true false).2.1 (by decide),
   ((c4_gop_structure sampleCaps emptyConfig
        { initEncoder true with gop_size := 30, bframes := 2 } ["main"]
        ProfileGUID.autoselect true false).2.2 (by decide) (by decide)).1,
   ((c4_gop_structure sampleCaps emptyConfig
        { initEncoder true with gop_size := 30, bframes := 2 } ["main"]
        ProfileGUID.autoselect true false).2.2 (by decide)
      (by decide)).2.trans (by decide)⟩

/-- C5: with B-frames and a positive GOP size requested but no
downstream profile supporting B-frames (progressive non-4:4:4 input),
building the session config succeeds, forcibly resets the stored
B-frame count to zero, produces frameIntervalP = 1, and emits the
bframes parameter-changed notification. -/
theorem c5_bframes_forced_reset (caps : DeviceCaps) (presetCfg : NvEncConfig)
    (s : NvH264Encoder) (ps : List String) (pk : Bool)
    (hne : ps ≠ []) (hB : profilesSupportBFrame ps = false)
    (hbf : 0 < s.bframes) (hgop : 0 < s.gop_size) :
    ∃ r, gst_nv_h264_encoder_set_format caps ⟨.NV12, false⟩ presetCfg s ps pk
        = .ok r ∧
      r.notifyBFrames = true ∧ r.encoder.bframes = 0 ∧
      r.config.frameIntervalP = 1 := by
  have hemp : ps.isEmpty = false := isEmpty_false_of_ne_nil hne
  refine ⟨set_format_body caps presetCfg s ps ProfileGUID.autoselect
      (profilesSupportBFrame ps) pk, ?_, ?_, ?_, ?_⟩
  · simp [gst_nv_h264_encoder_set_format, hemp]
  · simp [set_format_body, hB, hgop, hbf, Nat.pos_iff_ne_zero.mp hbf]
  · simp [set_format_body, hB, hgop, hbf]
  · have hng : ¬ s.gop_size < 0 := by omega
    simp [set_format_body, hB, hgop, hbf, hng]

/-- Witness for C5: requesting two B-frames with GOP 30 when only the
baseline profile is negotiated ends with bframes forced to 0,
frameIntervalP 1, and the override notification emitted. -/
theorem c5_bframes_forced_reset_witness :
    ∃ r, gst_nv_h264_encoder_set_format sampleCaps ⟨.NV12, false⟩ emptyConfig
        { initEncoder true with bframes := 2, gop_size := 30 }
        ["baseline"] false = .ok r ∧
      r.notifyBFrames = true ∧ r.encoder.bframes = 0 ∧
      r.config.frameIntervalP = 1 :=
  c5_bframes_forced_reset sampleCaps emptyConfig
    { initEncoder true with bframes := 2, gop_size := 30 } ["baseline"] false
    (by decide) (by decide) (by decide) (by decide)

/-- C6: cascading quantizer-bound defaults in the built session config —
whenever the I bound is set (non-negative) the group is enabled with
qpIntra equal to the I bound; an unset (-1) P bound inherits the I
bound, and an unset (-1) B bound inherits the possibly-inherited P
bound; the rule holds identically for the min-QP and max-QP groups.
The range hypotheses reflect the -1..51 GParamSpec ranges of the qp
properties. -/
theorem c6_qp_bound_cascade (caps : DeviceCaps) (presetCfg : NvEncConfig)
    (s : NvH264Encoder) (ps : List String) (sel0 : ProfileGUID)
    (supportsB : Bool) (pk : Bool)
    (hmi : s.qp_min_i ≤ 51) (hmp : s.qp_min_p ≤ 51)
    (hxi : s.qp_max_i ≤ 51) (hxp : s.qp_max_p ≤ 51) :
    (0 ≤ s.qp_min_i →
      (set_format_body caps presetCfg s ps sel0 supportsB
          pk).config.rcParams.enableMinQP = true ∧
      ((set_format_body caps presetCfg s ps sel0 supportsB
          pk).config.rcParams.minQP.qpIntra : Int) = s.qp_min_i ∧
      (s.qp_min_p = -1 →
        ((set_format_body caps presetCfg s ps sel0 supportsB
            pk).config.rcParams.minQP.qpInterP : Int) = s.qp_min_i) ∧
      (s.qp_min_b = -1 →
        ((set_format_body caps presetCfg s ps sel0 supportsB
            pk).config.rcParams.minQP.qpInterB : Int) =
          if 0 ≤ s.qp_min_p then s.qp_min_p else s.qp_min_i)) ∧
    (0 ≤ s.qp_max_i →
      (set_format_body caps presetCfg s ps sel0 supportsB
          pk).config.rcParams.enableMaxQP = true ∧
      ((set_format_body caps presetCfg s ps sel0 supportsB
          pk).config.rcParams.maxQP.qpIntra : Int) = s.qp_max_i ∧
      (s.qp_max_p = -1 →
        ((set_format_body caps presetCfg s ps sel0 supportsB
            pk).config.rcParams.maxQP.qpInterP : Int) = s.qp_max_i) ∧
      (s.qp_max_b = -1 →
        ((set_format_body caps presetCfg s ps sel0 supportsB
            pk).config.rcParams.maxQP.qpInterB : Int) =
          if 0 ≤ s.qp_max_p then s.qp_max_p else s.qp_max_i)) := by
  constructor
  · intro h
    refine ⟨by simp [set_format_body, h], ?_, fun hp => ?_, fun hb => ?_⟩
    · simp only [set_format_body, if_pos h]
      exact u32_eq_self h (by omega)
    · have hneg : ¬ (0 : Int) ≤ -1 := by omega
      simp only [set_format_body, if_pos h, hp, hneg, if_false, ge_iff_le]
      exact u32_eq_self h (by omega)
    · have hneg : ¬ (0 : Int) ≤ -1 := by omega
      simp only [set_format_body, if_pos h, hb, hneg, if_false, ge_iff_le]
      by_cases hp : 0 ≤ s.qp_min_p
      · simp only [if_pos hp]
        exact u32_eq_self hp (by omega)
      · simp only [if_neg hp]
        exact u32_eq_self h (by omega)
  · intro h
    have hact : s.qp_max_i ≥ 0 ∨
        ((if s.rc_mode = RCMode.rcDefault ∧ s.qp_const_i ≥ 0 then
            RCMode.constqp else s.rc_mode) = RCMode.constqp ∧
          s.qp_const_i ≥ 0) := Or.inl h
    refine ⟨by simp [set_format_body, h], ?_, fun hp => ?_, fun hb => ?_⟩
    · simp only [set_format_body, if_pos hact]
      exact u32_eq_self h (by omega)
    · have hneg : ¬ (0 : Int) ≤ -1 := by omega
      simp only [set_format_body, if_pos hact, hp, hneg, if_false, ge_iff_le]
      exact u32_eq_self h (by omega)
    · have hneg : ¬ (0 : Int) ≤ -1 := by omega
      simp only [set_format_body, if_pos hact, hb, hneg, if_false, ge_iff_le]
      by_cases hp : 0 ≤ s.qp_max_p
      · simp only [if_pos hp]
        exact u32_eq_self hp (by omega)
      · simp only [if_neg hp]
        exact u32_eq_self h (by omega)

/-- Witness for C6: with qp-min-i 10 (P and B bounds unset) and
qp-max-i 40, qp-max-p 45 (B bound unset), the built config carries
minQP = (10, 10, 10) and maxQP = (40, 45, 45). -/
theorem c6_qp_bound_cascade_witness :
    ((set_format_body sampleCaps emptyConfig
        { initEncoder true with
          qp_min_i := 10, qp_max_i := 40, qp_max_p := 45 } ["main"]
        ProfileGUID.autoselect true false).config.rcParams.minQP.qpInterP
      : Int) = 10 ∧
    ((set_format_body sampleCaps emptyConfig
        { initEncoder true with
          qp_min_i := 10, qp_max_i := 40, qp_max_p := 45 } ["main"]
        ProfileGUID.autoselect true false).config.rcParams.minQP.qpInterB
      : Int) = 10 ∧
    ((set_format_body sampleCaps emptyConfig
        { initEncoder true with
          qp_min_i := 10, qp_max_i := 40, qp_max_p := 45 } ["main"]
        ProfileGUID.autoselect true false).config.rcParams.maxQP.qpIntra
      : Int) = 40 ∧
    ((set_format_body sampleCaps emptyConfig
        { initEncoder true with
          qp_min_i := 10, qp_max_i := 40, qp_max_p := 45 } ["main"]
        ProfileGUID.autoselect true false).config.rcParams.maxQP.qpInterB
      : Int) = 45 := by
  have h := c6_qp_bound_cascade sampleCaps emptyConfig
      { initEncoder true with
        qp_min_i := 10, qp_max_i := 40, qp_max_p := 45 } ["main"]
      ProfileGUID.autoselect true false
      (by decide) (by decide) (by decide) (by decide)
  have h1 := h.1 (by decide)
  have h2 := h.2 (by decide)
  exact ⟨(h1.2.2.1 rfl), (h1.2.2.2 rfl).trans (by decide),
    h2.2.1, (h2.2.2.2 rfl).trans (by decide)⟩

/-- C7: packetized packaging round trip — each identified elementary
unit is emitted as its 4-byte big-endian length followed by the unit
payload, and concatenating all emitted blocks with their 4-byte length
prefixes stripped reproduces exactly the original start-code-delimited
payload bytes minus the start codes. -/
theorem c7_packetized_roundtrip (units : List (List Nat)) :
    ((create_output_buffer_packetized units).map dropLen4).flatten
      = units.flatten ∧
    annexBStream units = (units.map (fun u => startCode ++ u)).flatten ∧
    ∀ u ∈ units, (packagedNal u).take 4 = writeUint32BE u.length ∧
      (packagedNal u).drop 4 = u ∧ (writeUint32BE u.length).length = 4 := by
  refine ⟨?_, rfl, ?_⟩
  · induction units with
    | nil => rfl
    | cons u us ih =>
      simp only [create_output_buffer_packetized, List.map_cons,
        List.flatten_cons] at ih ⊢
      rw [ih]
      simp [dropLen4, packagedNal, writeUint32BE]
  · intro u _
    refine ⟨?_, ?_, rfl⟩ <;> simp [packagedNal, writeUint32BE]

/-- Witness for C7: packaging the two units 0x67 0x42 and 0x68 2a
reproduces their concatenation after stripping the two 4-byte length
prefixes, and the first emitted block is 0 0 0 2 followed by the
payload. -/
theorem c7_packetized_roundtrip_witness :
    ((create_output_buffer_packetized [[103, 66], [104]]).map dropLen4).flatten
        = [103, 66, 104] ∧
      (packagedNal [103, 66]).take 4 = writeUint32BE 2 :=
  ⟨((c7_packetized_roundtrip [[103, 66], [104]]).1).trans (by decide),
   ((c7_packetized_roundtrip [[103, 66], [104]]).2.2 [103, 66]
      (by decide)).1⟩

/-- C8: for every nonzero const-quality value q (within the property's
0..51 range), the built session config encodes the target as fixed
point: with scaled the gint truncation of q * 256, the integer byte is
scaled shifted right by 8 and the fractional byte is scaled masked to
its low 8 bits. -/
theorem c8_const_quality_fixed_point (caps : DeviceCaps)
    (presetCfg : NvEncConfig) (s : NvH264Encoder) (ps : List String)
    (sel0 : ProfileGUID) (supportsB : Bool) (pk : Bool)
    (hq0 : s.const_quality ≠ 0) (hpos : 0 ≤ s.const_quality)
    (hle : s.const_quality ≤ 51) :
    (set_format_body caps presetCfg s ps sel0 supportsB
        pk).config.rcParams.targetQuality
      = (ctrunc (s.const_quality * 256)).toNat / 256 ∧
    (set_format_body caps presetCfg s ps sel0 supportsB
        pk).config.rcParams.targetQualityLSB
      = (ctrunc (s.const_quality * 256)).toNat % 256 := by
  have h256 : (0 : ℚ) ≤ s.const_quality * 256 := by positivity
  have hfl : ctrunc (s.const_quality * 256) = ⌊s.const_quality * 256⌋ :=
    ctrunc_eq_floor h256
  have hge : 0 ≤ ctrunc (s.const_quality * 256) := by
    rw [hfl]
    exact Int.floor_nonneg.mpr h256
  have hub : ctrunc (s.const_quality * 256) ≤ 13056 := by
    rw [hfl]
    have hq : s.const_quality * 256 ≤ (13056 : ℚ) := by nlinarith
    calc ⌊s.const_quality * 256⌋ ≤ ⌊(13056 : ℚ)⌋ := Int.floor_le_floor hq
      _ = 13056 := by norm_num
  have hu : u32 (ctrunc (s.const_quality * 256))
      = (ctrunc (s.const_quality * 256)).toNat := by
    rw [u32, Int.emod_eq_of_lt hge (by omega)]
  have htn : (ctrunc (s.const_quality * 256)).toNat ≤ 13056 := by omega
  constructor
  · simp only [set_format_body, if_pos hq0, hu]
    exact Nat.mod_eq_of_lt (by omega)
  · simp only [set_format_body, if_pos hq0, hu]

/-- Witness for C8: const-quality 32.5 scales to 8320 = 0x2080 and
produces integer byte 32 and fractional byte 128. -/
theorem c8_const_quality_fixed_point_witness :
    (set_format_body sampleCaps emptyConfig
        { initEncoder true with const_quality := 32.5 } ["main"]
        ProfileGUID.autoselect true false).config.rcParams.targetQuality
      = 32 ∧
    (set_format_body sampleCaps emptyConfig
        { initEncoder true with const_quality := 32.5 } ["main"]
        ProfileGUID.autoselect true false).config.rcParams.targetQualityLSB
      = 128 := by
  have h := c8_const_quality_fixed_point sampleCaps emptyConfig
      { initEncoder true with const_quality := 32.5 } ["main"]
      ProfileGUID.autoselect true false
      (by show (32.5 : ℚ) ≠ 0; norm_num)
      (by show (0 : ℚ) ≤ 32.5; norm_num)
      (by show (32.5 : ℚ) ≤ 51; norm_num)
  have hv : ctrunc
      (({ initEncoder true with const_quality := 32.5 } :
        NvH264Encoder).const_quality * 256) = 8320 := by
    have hq : (({ initEncoder true with const_quality := 32.5 } :
        NvH264Encoder).const_quality * 256 : ℚ) = 8320 := by
      show (32.5 : ℚ) * 256 = 8320
      norm_num
    rw [hq, ctrunc]
    norm_num
  rw [hv] at h
  exact ⟨h.1.trans (by decide), h.2.trans (by decide)⟩

/-- C9: negotiating progressive Y444 input succeeds exactly when the
downstream profile set contains high-4:4:4; on success the 4:4:4
profile is selected (chroma format 3) and B-frame eligibility is true
(the stored bframes survive untouched and no override notification is
emitted); without a 4:4:4-capable downstream profile the format-set
fails with the unsupported-format error. -/
theorem c9_y444_negotiation (caps : DeviceCaps) (presetCfg : NvEncConfig)
    (s : NvH264Encoder) (ps : List String) (pk : Bool) (hne : ps ≠ []) :
    ((∃ r, gst_nv_h264_encoder_set_format caps ⟨.Y444, false⟩ presetCfg s ps pk
        = .ok r) ↔ ps.contains "high-4:4:4" = true) ∧
    (ps.contains "high-4:4:4" = false →
      gst_nv_h264_encoder_set_format caps ⟨.Y444, false⟩ presetCfg s ps pk
        = .error .unsupportedFormat444) ∧
    (∀ r, gst_nv_h264_encoder_set_format caps ⟨.Y444, false⟩ presetCfg s ps pk
        = .ok r →
      r.config.profileGUID = .high444 ∧
      r.config.h264Config.chromaFormatIDC = 3 ∧
      r.notifyBFrames = false ∧ r.encoder.bframes = s.bframes) := by
  have hemp : ps.isEmpty = false := isEmpty_false_of_ne_nil hne
  by_cases hc : ps.contains "high-4:4:4" = true
  · have hok : gst_nv_h264_encoder_set_format caps ⟨.Y444, false⟩ presetCfg s
        ps pk = .ok (set_format_body caps presetCfg s ps ProfileGUID.high444
          true pk) := by
      have hcm : "high-4:4:4" ∈ ps := by simpa using hc
      simp [gst_nv_h264_encoder_set_format, hemp, hcm]
    refine ⟨⟨fun _ => hc, fun _ => ⟨_, hok⟩⟩, fun hf => by simp_all,
      fun r hr => ?_⟩
    rw [hok] at hr
    injection hr with hr
    subst hr
    refine ⟨?_, ?_, ?_, ?_⟩
    · simp [set_format_body]
    · simp [set_format_body]
    · simp [set_format_body]
    · simp [set_format_body]
  · have herr : gst_nv_h264_encoder_set_format caps ⟨.Y444, false⟩ presetCfg s
        ps pk = .error .unsupportedFormat444 := by
      have hcm : "high-4:4:4" ∉ ps := by simpa using hc
      simp [gst_nv_h264_encoder_set_format, hemp, hcm]
    refine ⟨⟨fun ⟨r, hr⟩ => ?_, fun h => absurd h hc⟩, fun _ => herr,
      fun r hr => ?_⟩
    · rw [herr] at hr
      exact absurd hr (by simp)
    · rw [herr] at hr
      exact absurd hr (by simp)

/-- Witness for C9: Y444 against a downstream offering only high-4:4:4
succeeds, and against a downstream offering only baseline fails with
the unsupported-format error. -/
theorem c9_y444_negotiation_witness :
    (∃ r, gst_nv_h264_encoder_set_format sampleCaps ⟨.Y444, false⟩ emptyConfig
        (initEncoder true) ["high-4:4:4"] true = .ok r) ∧
    gst_nv_h264_encoder_set_format sampleCaps ⟨.Y444, false⟩ emptyConfig
        (initEncoder true) ["baseline"] true
      = .error .unsupportedFormat444 :=
  ⟨(c9_y444_negotiation sampleCaps emptyConfig (initEncoder true)
      ["high-4:4:4"] true (by decide)).1.mpr (by decide),
   (c9_y444_negotiation sampleCaps emptyConfig (initEncoder true)
      ["baseline"] true (by decide)).2.1 (by decide)⟩

/-- C10: the claim states that a set-property call carrying a value
equal to the property's current value leaves the whole state (including
the dirty flags) unchanged.  The qp-max copy-paste slip refutes this on
the code: with qp_min_p = 20, a set on qp-max-p with the value -1 that
get-property currently reports overwrites qp_min_p with -1 and raises
the rc dirty flag, so the redundant write does trigger a
reconfiguration. -/
theorem c10_redundant_qp_max_write_dirties_state :
    gst_nv_h264_encoder_get_property
        { initEncoder true with qp_min_p := 20 } .qpMaxP = .i (-1) ∧
    (gst_nv_h264_encoder_set_property
        { initEncoder true with qp_min_p := 20 } .qpMaxP (.i (-1))).qp_min_p
      = -1 ∧
    (gst_nv_h264_encoder_set_property
        { initEncoder true with qp_min_p := 20 } .qpMaxP
        (.i (-1))).rc_param_updated = true :=
  ⟨by decide, by decide, by decide⟩
